import Mathlib

/-!
Verification of the CALO Signal Normalization & Risk Detection Engine
and the CALO frontend data-binding logic.

The core engine (Normalizer, Risk Detector, Protocol Matcher, Insight
Formatter) is specified in spec.md sections 3, 4 and 8; its Python source
(`logic_engine.py`, `ai_reasoner.py`, `insight_formatter.py`) is not part of
the available sources, so those components are modelled from the spec, as
marked on each definition.  The frontend logic (`Prediction.js`,
`scripts/main.js`, and the component-based `main.js`) is embedded directly
from the JavaScript sources.

Numbers are rational (`ℚ`): the engine works with finite decimal scores in
[0,1] and threshold values, and no floating-point-specific behaviour is
claimed by the spec.
-/

namespace CALO

/-- Clamp a rational into the interval [lo, hi]. -/
def clamp (x lo hi : ℚ) : ℚ := max lo (min x hi)

/-- Modelled from the spec: RawSignalSet (spec §3) — mapping from signal
name to a raw numeric value, any key may be absent.  The recognized signal
names are those used by the three detection rules (spec §4.2) and the
Thresholds configuration (spec §6). -/
structure RawSignalSet where
  rainfall_mm : Option ℚ
  temperature_c : Option ℚ
  complaint_count : Option ℚ
  drainage_complaints : Option ℚ
  trend_index : Option ℚ
deriving DecidableEq

/-- Modelled from the spec: the Thresholds configuration structure
(spec §6): {rainfall_critical_mm, temp_neutral_c, temp_max_c,
complaints_critical, disease_risk_threshold, flood_risk_threshold,
heat_risk_threshold}. -/
structure Thresholds where
  rainfall_critical_mm : ℚ
  temp_neutral_c : ℚ
  temp_max_c : ℚ
  complaints_critical : ℚ
  disease_risk_threshold : ℚ
  flood_risk_threshold : ℚ
  heat_risk_threshold : ℚ
deriving DecidableEq

/-- The README default thresholds (backend README, "Risk Thresholds"):
RAINFALL_CRITICAL_MM = 50, TEMP_NEUTRAL_C = 25, TEMP_MAX_C = 45,
COMPLAINTS_CRITICAL = 5, DISEASE_RISK_THRESHOLD = 0.4,
FLOOD_RISK_THRESHOLD = 0.5, HEAT_RISK_THRESHOLD = 0.6. -/
def defaultThresholds : Thresholds :=
  { rainfall_critical_mm := 50
    temp_neutral_c := 25
    temp_max_c := 45
    complaints_critical := 5
    disease_risk_threshold := 2/5
    flood_risk_threshold := 1/2
    heat_risk_threshold := 3/5 }

/-- A well-formed Thresholds configuration (spec §7, InvalidConfiguration
is rejected at load time): the linear denominators are positive and the
temperature comfort band is non-degenerate. -/
def validThresholds (cfg : Thresholds) : Prop :=
  0 < cfg.rainfall_critical_mm ∧
  cfg.temp_neutral_c < cfg.temp_max_c ∧
  0 < cfg.complaints_critical

instance (cfg : Thresholds) : Decidable (validThresholds cfg) := by
  unfold validThresholds; infer_instance

/-- Modelled from the spec: NormalizedSignalSet (spec §3) — the same
signal names mapped to stress scores in [0,1]; missing raw inputs are
recorded as "unavailable" for engineer-view transparency (spec §4.1). -/
structure NormalizedSignalSet where
  rainfall : ℚ
  temperature : ℚ
  complaints : ℚ
  drainage : ℚ
  trends : ℚ
  unavailable : List String
deriving DecidableEq

/-- Modelled from the spec: linear-clamped normalization (spec §4.1):
score = clamp(raw / critical_threshold, 0, 1); a missing raw input yields
the documented default score of 0.0. -/
def rainScore (cfg : Thresholds) : Option ℚ → ℚ
  | none => 0
  | some r => clamp (r / cfg.rainfall_critical_mm) 0 1

/-- Modelled from the spec: band normalization with a comfort zone
(spec §4.1): the score is 0 within the comfort band (at or below the
neutral point) and rises linearly above the neutral point toward the max
threshold; below-band extremes map to 0 since no symmetric rule is
configured; missing input yields 0.0. -/
def tempScore (cfg : Thresholds) : Option ℚ → ℚ
  | none => 0
  | some t =>
      if t ≤ cfg.temp_neutral_c then 0
      else clamp ((t - cfg.temp_neutral_c) / (cfg.temp_max_c - cfg.temp_neutral_c)) 0 1

/-- Modelled from the spec: count normalization (spec §4.1):
score = clamp(count / critical_count, 0, 1); missing input yields 0.0. -/
def countScore (cfg : Thresholds) : Option ℚ → ℚ
  | none => 0
  | some c => clamp (c / cfg.complaints_critical) 0 1

/-- Modelled from the spec: the trend index is already an index value, so
it is clamped into [0,1]; missing input yields 0.0. -/
def trendScore : Option ℚ → ℚ
  | none => 0
  | some t => clamp t 0 1

/-- Modelled from the spec: `normalize(raw, config)` (spec §4.1) — maps
each known signal through its monotonic [0,1] mapping; unknown or missing
raw signals yield 0.0 and are recorded as unavailable rather than silently
dropped.  Pure, total, no error for missing fields. -/
def normalize (raw : RawSignalSet) (cfg : Thresholds) : NormalizedSignalSet :=
  { rainfall := rainScore cfg raw.rainfall_mm
    temperature := tempScore cfg raw.temperature_c
    complaints := countScore cfg raw.complaint_count
    drainage := countScore cfg raw.drainage_complaints
    trends := trendScore raw.trend_index
    unavailable :=
      (if raw.rainfall_mm.isNone then ["rainfall_mm"] else []) ++
      (if raw.temperature_c.isNone then ["temperature_c"] else []) ++
      (if raw.complaint_count.isNone then ["complaint_count"] else []) ++
      (if raw.drainage_complaints.isNone then ["drainage_complaints"] else []) ++
      (if raw.trend_index.isNone then ["trend_index"] else []) }

/-- Re-inject an already-normalized signal set as a raw signal set, so it
can be fed to `normalize` again (spec §4.1 re-normalization property). -/
def toRawSignals (n : NormalizedSignalSet) : RawSignalSet :=
  { rainfall_mm := some n.rainfall
    temperature_c := some n.temperature
    complaint_count := some n.complaints
    drainage_complaints := some n.drainage
    trend_index := some n.trends }

/-- Modelled from the spec: severity tiers (spec §3). -/
inductive Severity
  | Low
  | Medium
  | High
  | Critical
deriving DecidableEq

/-- Numeric rank of a severity tier, for taking maxima. -/
def Severity.toNat : Severity → Nat
  | .Low => 0
  | .Medium => 1
  | .High => 2
  | .Critical => 3

/-- Maximum of two severity tiers in the Low < Medium < High < Critical
order. -/
def maxSev (a b : Severity) : Severity :=
  if a.toNat ≤ b.toNat then b else a

/-- Modelled from the spec: severity tier derived from confidence via
fixed cut-points (spec §4.2, "documented, not tuned per request"). -/
def severityOfConfidence (c : ℚ) : Severity :=
  if c < 1/4 then .Low
  else if c < 1/2 then .Medium
  else if c < 3/4 then .High
  else .Critical

/-- Modelled from the spec: RiskRecord (spec §3). -/
structure RiskRecord where
  id : String
  name : String
  confidence : ℚ
  contributing_signals : List String
  severity_tier : Severity
deriving DecidableEq

/-- Modelled from the spec: the BIO_RISK predicate (spec §4.2) —
conjunctive: rainfall, complaints and trend stress must all meet the
configured disease-risk threshold. -/
def bioFires (s : NormalizedSignalSet) (cfg : Thresholds) : Bool :=
  decide (cfg.disease_risk_threshold ≤ s.rainfall) &&
  decide (cfg.disease_risk_threshold ≤ s.complaints) &&
  decide (cfg.disease_risk_threshold ≤ s.trends)

/-- Modelled from the spec: the FLOOD_RISK predicate (spec §4.2):
rainfall and drainage-complaint stress meet the flood threshold. -/
def floodFires (s : NormalizedSignalSet) (cfg : Thresholds) : Bool :=
  decide (cfg.flood_risk_threshold ≤ s.rainfall) &&
  decide (cfg.flood_risk_threshold ≤ s.drainage)

/-- Modelled from the spec: the HEAT_RISK predicate (spec §4.2):
temperature stress meets the heat threshold (the caller supplies a
pre-aggregated point value for "sustained"). -/
def heatFires (s : NormalizedSignalSet) (cfg : Thresholds) : Bool :=
  decide (cfg.heat_risk_threshold ≤ s.temperature)

/-- Modelled from the spec: the BIO_RISK record — confidence is the
deterministic mean of the contributing normalized signals (spec §4.2). -/
def bioRecord (s : NormalizedSignalSet) : RiskRecord :=
  let c := (s.rainfall + s.complaints + s.trends) / 3
  { id := "BIO_RISK"
    name := "Vector-Borne Disease Cluster"
    confidence := c
    contributing_signals := ["rainfall_mm", "complaint_count", "trend_index"]
    severity_tier := severityOfConfidence c }

/-- Modelled from the spec: the FLOOD_RISK record. -/
def floodRecord (s : NormalizedSignalSet) : RiskRecord :=
  let c := (s.rainfall + s.drainage) / 2
  { id := "FLOOD_RISK"
    name := "Urban Flooding Risk"
    confidence := c
    contributing_signals := ["rainfall_mm", "drainage_complaints"]
    severity_tier := severityOfConfidence c }

/-- Modelled from the spec: the HEAT_RISK record. -/
def heatRecord (s : NormalizedSignalSet) : RiskRecord :=
  { id := "HEAT_RISK"
    name := "Heatwave Risk"
    confidence := s.temperature
    contributing_signals := ["temperature_c"]
    severity_tier := severityOfConfidence s.temperature }

/-- Modelled from the spec: `detect(signals, config)` (spec §4.2) — an
ordered sequence of RiskRecord in evaluation order (BIO, FLOOD, HEAT);
detectors are independent, never mutate the input, and the function is
total: when no rule matches it returns the empty sequence. -/
def detect (s : NormalizedSignalSet) (cfg : Thresholds) : List RiskRecord :=
  (if bioFires s cfg then [bioRecord s] else []) ++
  (if floodFires s cfg then [floodRecord s] else []) ++
  (if heatFires s cfg then [heatRecord s] else [])

/-- Modelled from the spec: Protocol (spec §3). -/
structure Protocol where
  id : String
  name : String
  matches_risk_ids : List String
  actions : List String
deriving DecidableEq

/-- The generic fallback action for a detected risk with no catalog
protocol (spec §4.3). -/
def fallbackAction : String := "Escalate to municipal control room for manual review"

/-- Append the given actions to the accumulator, deduplicating by exact
string equality while preserving first-seen order (spec §4.3). -/
def dedupAppend : List String → List String → List String
  | acc, [] => acc
  | acc, a :: as => dedupAppend (if a ∈ acc then acc else acc ++ [a]) as

/-- Modelled from the spec: the actions contributed by one detected risk
(spec §4.3): all actions of every protocol whose matches_risk_ids contains
the risk id, in catalog order; the generic fallback action when no
protocol matches. -/
def actionsForRisk (catalog : List Protocol) (r : RiskRecord) : List String :=
  let matched := catalog.filter (fun p => decide (r.id ∈ p.matches_risk_ids))
  if matched = [] then [fallbackAction] else matched.flatMap Protocol.actions

/-- Worker for the protocol matcher: fold the detected risks in order,
accumulating the deduplicated action list. -/
def matchGo (acc : List String) : List RiskRecord → List Protocol → List String
  | [], _ => acc
  | r :: rs, catalog => matchGo (dedupAppend acc (actionsForRisk catalog r)) rs catalog

/-- Modelled from the spec: `match(risks, catalog)` (spec §4.3) — the
deduplicated ordered action list (named matchProtocols because `match` is
reserved in Lean). -/
def matchProtocols (risks : List RiskRecord) (catalog : List Protocol) : List String :=
  matchGo [] risks catalog

/-- Modelled from the spec: the overall status values (spec §6). -/
inductive Status
  | Healthy
  | Warning
  | Critical
deriving DecidableEq

/-- Numeric rank of a status, Healthy < Warning < Critical. -/
def Status.toNat : Status → Nat
  | .Healthy => 0
  | .Warning => 1
  | .Critical => 2

/-- Modelled from the spec: the tier-to-status mapping (spec §4.4):
Low/Medium map to Warning, High/Critical map to Critical. -/
def statusOfTier : Severity → Status
  | .Low => .Warning
  | .Medium => .Warning
  | .High => .Critical
  | .Critical => .Critical

/-- The maximum severity tier across all detected risks, none when the
risk list is empty (spec §4.4). -/
def maxTier (risks : List RiskRecord) : Option Severity :=
  risks.foldl
    (fun acc r =>
      match acc with
      | none => some r.severity_tier
      | some t => some (maxSev t r.severity_tier))
    none

/-- Modelled from the spec: overall status = the maximum severity tier
across all detected risks, mapped to Healthy (no risks), Warning
(Low/Medium), Critical (High/Critical) (spec §4.4). -/
def overallStatus (risks : List RiskRecord) : Status :=
  match maxTier risks with
  | none => .Healthy
  | some t => statusOfTier t

/-- The flat status field rendering of a Status. -/
def statusString : Status → String
  | .Healthy => "Healthy"
  | .Warning => "Warning"
  | .Critical => "Critical"

/-- The citizen-view visual theme derived from the overall status; the
single status mapping feeds both the flat status field and the theme
(spec §4.4 and §6). -/
def themeOfStatus : Status → String
  | .Healthy => "Normal"
  | .Warning => "Warning"
  | .Critical => "Critical"

/-- Modelled from the spec: citizen_view (spec §6). -/
structure CitizenView where
  status_headline : String
  visual_theme : String
deriving DecidableEq

/-- Modelled from the spec: engineer_view (spec §6). -/
structure EngineerView where
  confidence_score : ℚ
  detected_risks : List String
  raw_weather : ℚ
  raw_complaints : ℚ
  raw_trends : ℚ
  logic_trace : String
  recommended_actions : List String
deriving DecidableEq

/-- Modelled from the spec: AnalysisResult (spec §3 and §6). -/
structure AnalysisResult where
  status : String
  summary : String
  details : List String
  future : String
  citizen_view : CitizenView
  engineer_view : EngineerView
deriving DecidableEq

/-- Modelled from the spec: engineer-view confidence score — the maximum
of the individual risk confidences, clamped to [0,1] (spec §4.4). -/
def confidenceScore (risks : List RiskRecord) : ℚ :=
  clamp (risks.foldl (fun m r => max m r.confidence) 0) 0 1

/-- Modelled from the spec: `format(risks, actions, signals, config)`
(spec §4.4) — pure and total construction of the dual-view
AnalysisResult; the overall-status mapping is the single source of truth
for both the flat status field and citizen_view.visual_theme. -/
def format (risks : List RiskRecord) (actions : List String)
    (signals : NormalizedSignalSet) (_cfg : Thresholds) : AnalysisResult :=
  let st := overallStatus risks
  { status := statusString st
    summary :=
      if risks = [] then "No anomalies detected"
      else String.intercalate ", " (risks.map RiskRecord.name)
    details := risks.map RiskRecord.name
    future :=
      if risks = [] then "City systems stable." else "Monitor detected risk factors."
    citizen_view :=
      { status_headline :=
          if risks = [] then "All city systems are operating normally."
          else "City services are responding to detected conditions."
        visual_theme := themeOfStatus st }
    engineer_view :=
      { confidence_score := confidenceScore risks
        detected_risks := risks.map RiskRecord.name
        raw_weather := signals.rainfall
        raw_complaints := signals.complaints
        raw_trends := signals.trends
        logic_trace :=
          if risks = [] then "No rule fired."
          else String.intercalate "; " (risks.map (fun r => r.id ++ " fired"))
        recommended_actions := actions } }

/-- Modelled from the spec: the full pipeline (spec §2 data flow):
raw metrics, Normalizer, Detector, Matcher, Formatter. -/
def runPipeline (raw : RawSignalSet) (cfg : Thresholds)
    (catalog : List Protocol) : AnalysisResult :=
  let s := normalize raw cfg
  let risks := detect s cfg
  format risks (matchProtocols risks catalog) s cfg

/-- The empty RawSignalSet: every recognized signal absent (spec §8
empty-input case). -/
def emptyRaw : RawSignalSet :=
  { rainfall_mm := none
    temperature_c := none
    complaint_count := none
    drainage_complaints := none
    trend_index := none }

/-! ### Frontend embedding

The following definitions are embedded directly from the JavaScript
sources: `frontend/src/components/Prediction.js` (flat-shape app, class
CALOApp), the component-based app (`fetchData` in the unnamed module that
imports CityStatus/Explanation/Prediction), and
`frontend/src/scripts/main.js` (dual-view app, v2.1). -/

/-- The flat response shape consumed by the Prediction.js CALOApp:
status, summary, details, future. -/
structure FlatData where
  status : String
  summary : String
  details : List String
  future : String
deriving DecidableEq

/-- Outcome of the `fetch(API_URL)` call as seen by a fetchData handler:
a successful response with parsed JSON, a response with `ok` false (which
the handlers turn into a thrown error), or a thrown exception. -/
inductive FetchOutcome
  | ok (d : FlatData)
  | httpNotOk (code : Nat)
  | exn (msg : String)
deriving DecidableEq

/-- Embedded from Prediction.js `CALOApp.fetchData`: on success,
`this.data` is the parsed response; on a non-ok response or any thrown
error, the catch block substitutes the hard-coded fallback object with
status "Connection Error". -/
def fetchDataFlat (apiUrl : String) : FetchOutcome → FlatData
  | .ok d => d
  | .httpNotOk _ =>
      { status := "Connection Error"
        summary := "Could not reach the City Intelligence Network."
        details := ["Backend might be offline", "Check API URL configuration: " ++ apiUrl]
        future := "Please try again later." }
  | .exn _ =>
      { status := "Connection Error"
        summary := "Could not reach the City Intelligence Network."
        details := ["Backend might be offline", "Check API URL configuration: " ++ apiUrl]
        future := "Please try again later." }

/-- Embedded from the component-based app's `fetchData`: the pair of
texts it leaves on screen — the system-status element text and the
status-indicator text set through `renderCityStatus` (CityStatus.js).  On
success these are "Online" and the response status; on a non-ok response
or thrown error the catch block sets "Error" and renders
"Connection Failed". -/
def fetchDataComponents : FetchOutcome → String × String
  | .ok d => ("Online", d.status)
  | .httpNotOk _ => ("Error", "Connection Failed")
  | .exn _ => ("Error", "Connection Failed")

/-- Class-list state of one view container element, restricted to the
classes `navigateTo` touches: hidden, opacity-0, flex, opacity-100. -/
structure ViewElem where
  hidden : Bool
  opacityZero : Bool
  flex : Bool
  opacityFull : Bool
deriving DecidableEq

/-- App navigation state: `this.currentView` plus the three view
container elements. -/
structure NavState where
  currentView : String
  home : ViewElem
  explain : ViewElem
  predict : ViewElem
deriving DecidableEq

/-- Embedded from Prediction.js: `this.views = ['home', 'explain',
'predict']`. -/
def appViews : List String := ["home", "explain", "predict"]

/-- Embedded from Prediction.js `navigateTo`: hiding a view adds hidden
and opacity-0 and removes flex and opacity-100. -/
def hideView (_v : ViewElem) : ViewElem :=
  { hidden := true, opacityZero := true, flex := false, opacityFull := false }

/-- Embedded from Prediction.js `navigateTo`: showing the target view
removes hidden immediately and opacity-0 shortly after (the 50 ms timeout
is modelled by its completed effect). -/
def showView (v : ViewElem) : ViewElem :=
  { v with hidden := false, opacityZero := false }

/-- Embedded from Prediction.js `CALOApp.navigateTo`: if the argument is
not one of the three known views the method returns at once with no
change; otherwise it hides all views, shows the target and sets
`this.currentView` to the argument. -/
def navigateTo (viewId : String) (st : NavState) : NavState :=
  if viewId ∉ appViews then st
  else
    let st1 : NavState :=
      { st with
        home := hideView st.home
        explain := hideView st.explain
        predict := hideView st.predict }
    let st2 : NavState :=
      if viewId = "home" then { st1 with home := showView st1.home }
      else if viewId = "explain" then { st1 with explain := showView st1.explain }
      else { st1 with predict := showView st1.predict }
    { st2 with currentView := viewId }

/-- The three styling outcomes the dual-view badge code can apply. -/
inductive BadgeColor
  | red
  | amber
  | green
deriving DecidableEq

/-- The JavaScript `String.prototype.toLowerCase` restricted to its
ASCII behaviour, which coincides with per-character lower-casing; the
theme strings compared against are all ASCII. -/
def lowerString (s : String) : String := String.mk (s.data.map Char.toLower)

/-- Embedded from scripts/main.js `updateUI`: the badge colour is chosen
by lower-casing `citizen_view.visual_theme` (defaulting to 'Normal' when
the field is absent or the empty string, as `||` does in JavaScript):
'critical' or 'caution' give the red classes, 'warning' gives amber,
anything else gives green. -/
def badgeColor (visualTheme : Option String) : BadgeColor :=
  let themeRaw : String :=
    match visualTheme with
    | none => "Normal"
    | some s => if s = "" then "Normal" else s
  let theme := lowerString themeRaw
  if theme = "critical" || theme = "caution" then .red
  else if theme = "warning" then .amber
  else .green

/-! ### Helper lemmas -/

theorem clamp_lower (x lo hi : ℚ) : lo ≤ clamp x lo hi := le_max_left _ _

theorem clamp_upper (x lo hi : ℚ) (h : lo ≤ hi) : clamp x lo hi ≤ hi :=
  max_le h (min_le_right _ _)

theorem clamp_mono (x y lo hi : ℚ) (h : x ≤ y) : clamp x lo hi ≤ clamp y lo hi :=
  max_le_max le_rfl (min_le_min h le_rfl)

theorem rainScore_mem (cfg : Thresholds) (o : Option ℚ) :
    0 ≤ rainScore cfg o ∧ rainScore cfg o ≤ 1 := by
  cases o with
  | none => constructor <;> norm_num [rainScore]
  | some r => exact ⟨clamp_lower _ _ _, clamp_upper _ _ _ (by norm_num)⟩

theorem tempScore_mem (cfg : Thresholds) (o : Option ℚ) :
    0 ≤ tempScore cfg o ∧ tempScore cfg o ≤ 1 := by
  cases o with
  | none => constructor <;> norm_num [tempScore]
  | some t =>
      simp only [tempScore]
      split
      · constructor <;> norm_num
      · exact ⟨clamp_lower _ _ _, clamp_upper _ _ _ (by norm_num)⟩

theorem countScore_mem (cfg : Thresholds) (o : Option ℚ) :
    0 ≤ countScore cfg o ∧ countScore cfg o ≤ 1 := by
  cases o with
  | none => constructor <;> norm_num [countScore]
  | some c => exact ⟨clamp_lower _ _ _, clamp_upper _ _ _ (by norm_num)⟩

theorem trendScore_mem (o : Option ℚ) :
    0 ≤ trendScore o ∧ trendScore o ≤ 1 := by
  cases o with
  | none => constructor <;> norm_num [trendScore]
  | some t => exact ⟨clamp_lower _ _ _, clamp_upper _ _ _ (by norm_num)⟩

theorem tempScore_mono (cfg : Thresholds) (hband : cfg.temp_neutral_c < cfg.temp_max_c)
    (t₁ t₂ : ℚ) (h : t₁ ≤ t₂) : tempScore cfg (some t₁) ≤ tempScore cfg (some t₂) := by
  simp only [tempScore]
  by_cases h1 : t₁ ≤ cfg.temp_neutral_c
  · rw [if_pos h1]
    by_cases h2 : t₂ ≤ cfg.temp_neutral_c
    · rw [if_pos h2]
    · rw [if_neg h2]
      exact clamp_lower _ _ _
  · have h2 : ¬ t₂ ≤ cfg.temp_neutral_c := fun hh => h1 (le_trans h hh)
    rw [if_neg h1, if_neg h2]
    apply clamp_mono
    have hden : (0:ℚ) < cfg.temp_max_c - cfg.temp_neutral_c := by linarith
    exact (div_le_div_iff_of_pos_right hden).mpr (by linarith)

theorem dedupAppend_mem_left (as : List String) :
    ∀ acc a, a ∈ acc → a ∈ dedupAppend acc as := by
  induction as with
  | nil => intro acc a h; exact h
  | cons b bs ih =>
      intro acc a h
      show a ∈ dedupAppend (if b ∈ acc then acc else acc ++ [b]) bs
      apply ih
      split
      · exact h
      · exact List.mem_append_left _ h

theorem dedupAppend_mem_right (as : List String) :
    ∀ acc a, a ∈ as → a ∈ dedupAppend acc as := by
  induction as with
  | nil => intro acc a h; cases h
  | cons b bs ih =>
      intro acc a h
      show a ∈ dedupAppend (if b ∈ acc then acc else acc ++ [b]) bs
      rcases List.mem_cons.mp h with rfl | h2
      · apply dedupAppend_mem_left
        split
        · assumption
        · exact List.mem_append_right _ (List.mem_singleton_self a)
      · exact ih _ _ h2

theorem matchGo_mem_acc (rs : List RiskRecord) :
    ∀ acc catalog a, a ∈ acc → a ∈ matchGo acc rs catalog := by
  induction rs with
  | nil => intro acc catalog a h; exact h
  | cons r rs ih =>
      intro acc catalog a h
      show a ∈ matchGo (dedupAppend acc (actionsForRisk catalog r)) rs catalog
      exact ih _ _ _ (dedupAppend_mem_left _ _ _ h)

theorem matchGo_mem_risk (rs : List RiskRecord) :
    ∀ acc catalog r a, r ∈ rs → a ∈ actionsForRisk catalog r →
      a ∈ matchGo acc rs catalog := by
  induction rs with
  | nil => intro acc catalog r a h _; cases h
  | cons r0 rs ih =>
      intro acc catalog r a h ha
      show a ∈ matchGo (dedupAppend acc (actionsForRisk catalog r0)) rs catalog
      rcases List.mem_cons.mp h with rfl | h2
      · exact matchGo_mem_acc _ _ _ _ (dedupAppend_mem_right _ _ _ ha)
      · exact ih _ _ _ _ h2 ha

theorem statusOfTier_mono (a b : Severity) (h : a.toNat ≤ b.toNat) :
    (statusOfTier a).toNat ≤ (statusOfTier b).toNat := by
  cases a <;> cases b <;> simp_all [Severity.toNat, statusOfTier, Status.toNat]

theorem maxTier_append (risks : List RiskRecord) (r : RiskRecord) :
    maxTier (risks ++ [r]) =
      match maxTier risks with
      | none => some r.severity_tier
      | some t => some (maxSev t r.severity_tier) := by
  simp [maxTier, List.foldl_append]

/-! ### Claim theorems -/

/-- The property bundle claimed for `normalize`: every produced score lies
in [0,1]; the band-linear temperature score is monotone non-decreasing in
the raw value; a missing raw input yields the documented default score of
0.0. -/
def normalizeScoreSpec (raw : RawSignalSet) (cfg : Thresholds) : Prop :=
  (0 ≤ (normalize raw cfg).rainfall ∧ (normalize raw cfg).rainfall ≤ 1) ∧
  (0 ≤ (normalize raw cfg).temperature ∧ (normalize raw cfg).temperature ≤ 1) ∧
  (0 ≤ (normalize raw cfg).complaints ∧ (normalize raw cfg).complaints ≤ 1) ∧
  (0 ≤ (normalize raw cfg).drainage ∧ (normalize raw cfg).drainage ≤ 1) ∧
  (0 ≤ (normalize raw cfg).trends ∧ (normalize raw cfg).trends ≤ 1) ∧
  (∀ t₁ t₂ : ℚ, t₁ ≤ t₂ → tempScore cfg (some t₁) ≤ tempScore cfg (some t₂)) ∧
  (raw.rainfall_mm = none → (normalize raw cfg).rainfall = 0) ∧
  (raw.temperature_c = none → (normalize raw cfg).temperature = 0) ∧
  (raw.complaint_count = none → (normalize raw cfg).complaints = 0) ∧
  (raw.drainage_complaints = none → (normalize raw cfg).drainage = 0) ∧
  (raw.trend_index = none → (normalize raw cfg).trends = 0)

/-- Claim C1: for every raw signal value within its domain and every valid
Thresholds configuration, `normalize` returns a stress score in [0,1] for
each signal; for the band-linear temperature signal the score is monotone
non-decreasing in the raw value; and a missing raw input yields the
documented default score of 0.0. -/
theorem normalize_score_bounds_monotone (raw : RawSignalSet) (cfg : Thresholds)
    (hcfg : validThresholds cfg) : normalizeScoreSpec raw cfg := by
  obtain ⟨-, hband, -⟩ := hcfg
  refine ⟨?_, ?_, ?_, ?_, ?_, ?_, ?_, ?_, ?_, ?_, ?_⟩
  · exact rainScore_mem cfg raw.rainfall_mm
  · exact tempScore_mem cfg raw.temperature_c
  · exact countScore_mem cfg raw.complaint_count
  · exact countScore_mem cfg raw.drainage_complaints
  · exact trendScore_mem raw.trend_index
  · exact tempScore_mono cfg hband
  · intro h; simp [normalize, h, rainScore]
  · intro h; simp [normalize, h, tempScore]
  · intro h; simp [normalize, h, countScore]
  · intro h; simp [normalize, h, countScore]
  · intro h; simp [normalize, h, trendScore]

/-- Witness for C1 at the default thresholds and the empty raw signal
set. -/
theorem normalize_score_bounds_monotone_witness :
    validThresholds defaultThresholds ∧ normalizeScoreSpec emptyRaw defaultThresholds :=
  ⟨by norm_num [validThresholds, defaultThresholds],
   normalize_score_bounds_monotone emptyRaw defaultThresholds
     (by norm_num [validThresholds, defaultThresholds])⟩

/-- Claim C2: every detected risk is represented in the matcher output —
a risk matched by a catalog protocol contributes that protocol's actions
to the output, and a risk matching no protocol contributes the generic
fallback action, so no detected risk is silently omitted. -/
theorem match_completeness (risks : List RiskRecord) (catalog : List Protocol)
    (r : RiskRecord) (hr : r ∈ risks) :
    ((∀ p ∈ catalog, r.id ∉ p.matches_risk_ids) →
      fallbackAction ∈ matchProtocols risks catalog) ∧
    (∀ p ∈ catalog, r.id ∈ p.matches_risk_ids →
      ∀ a ∈ p.actions, a ∈ matchProtocols risks catalog) := by
  constructor
  · intro h
    have hfil : catalog.filter (fun p => decide (r.id ∈ p.matches_risk_ids)) = [] := by
      apply List.filter_eq_nil_iff.mpr
      intro p hp
      simpa using h p hp
    have hact : actionsForRisk catalog r = [fallbackAction] := by
      simp [actionsForRisk, hfil]
    apply matchGo_mem_risk risks [] catalog r fallbackAction hr
    rw [hact]
    exact List.mem_singleton_self _
  · intro p hp hid a ha
    have hpf : p ∈ catalog.filter (fun p => decide (r.id ∈ p.matches_risk_ids)) :=
      List.mem_filter.mpr ⟨hp, by simpa using hid⟩
    have hne : catalog.filter (fun p => decide (r.id ∈ p.matches_risk_ids)) ≠ [] := by
      intro hnil
      rw [hnil] at hpf
      cases hpf
    have hact : a ∈ actionsForRisk catalog r := by
      simp only [actionsForRisk, if_neg hne]
      exact List.mem_flatMap.mpr ⟨p, hpf, ha⟩
    exact matchGo_mem_risk risks [] catalog r a hr hact

/-- A sample detected risk, used to instantiate witnesses. -/
def sampleRisk : RiskRecord :=
  { id := "BIO_RISK"
    name := "Vector-Borne Disease Cluster"
    confidence := 1/2
    contributing_signals := ["rainfall_mm"]
    severity_tier := Severity.High }

/-- Witness for C2: the sample risk against the empty catalog takes the
fallback branch, and the fallback action is indeed in the output. -/
theorem match_completeness_witness :
    sampleRisk ∈ [sampleRisk] ∧
    (((∀ p ∈ ([] : List Protocol), sampleRisk.id ∉ p.matches_risk_ids) →
        fallbackAction ∈ matchProtocols [sampleRisk] []) ∧
      (∀ p ∈ ([] : List Protocol), sampleRisk.id ∈ p.matches_risk_ids →
        ∀ a ∈ p.actions, a ∈ matchProtocols [sampleRisk] [])) ∧
    fallbackAction ∈ matchProtocols [sampleRisk] [] :=
  ⟨List.mem_singleton_self _,
   match_completeness [sampleRisk] [] sampleRisk (List.mem_singleton_self _),
   (match_completeness [sampleRisk] [] sampleRisk (List.mem_singleton_self _)).1
     (by simp)⟩

/-- Claim C3: format derives the overall status as the maximum severity
tier over the detected risks, mapped to Healthy when the list is empty,
Warning for Low/Medium, Critical for High/Critical; the flat status field
and citizen_view.visual_theme are both derived from this single mapping
and therefore always agree. -/
theorem format_status_single_source (risks : List RiskRecord) (actions : List String)
    (signals : NormalizedSignalSet) (cfg : Thresholds) :
    (format risks actions signals cfg).status = statusString (overallStatus risks) ∧
    (format risks actions signals cfg).citizen_view.visual_theme =
      themeOfStatus (overallStatus risks) ∧
    (overallStatus risks =
      match maxTier risks with
      | none => Status.Healthy
      | some t => statusOfTier t) ∧
    overallStatus ([] : List RiskRecord) = Status.Healthy ∧
    statusOfTier Severity.Low = Status.Warning ∧
    statusOfTier Severity.Medium = Status.Warning ∧
    statusOfTier Severity.High = Status.Critical ∧
    statusOfTier Severity.Critical = Status.Critical ∧
    ((format risks actions signals cfg).status = "Healthy" ↔
      (format risks actions signals cfg).citizen_view.visual_theme = "Normal") ∧
    ((format risks actions signals cfg).status = "Warning" ↔
      (format risks actions signals cfg).citizen_view.visual_theme = "Warning") ∧
    ((format risks actions signals cfg).status = "Critical" ↔
      (format risks actions signals cfg).citizen_view.visual_theme = "Critical") := by
  refine ⟨rfl, rfl, rfl, rfl, rfl, rfl, rfl, rfl, ?_, ?_, ?_⟩ <;>
    cases hs : overallStatus risks <;>
      simp [format, statusString, themeOfStatus, hs]

/-- Claim C4: detect is deterministic — identical normalized signal sets
and identical thresholds yield identical risk record sequences, in the
same evaluation order. -/
theorem detect_deterministic (s₁ s₂ : NormalizedSignalSet) (c₁ c₂ : Thresholds)
    (hs : s₁ = s₂) (hc : c₁ = c₂) : detect s₁ c₁ = detect s₂ c₂ := by
  rw [hs, hc]

/-- Witness for C4 at the normalized empty signal set and the default
thresholds. -/
theorem detect_deterministic_witness :
    detect (normalize emptyRaw defaultThresholds) defaultThresholds =
      detect (normalize emptyRaw defaultThresholds) defaultThresholds :=
  detect_deterministic _ _ _ _ rfl rfl

/-- Claim C5: detect is total — when no rule fires it returns the empty
sequence — and for the empty raw signal set under the default thresholds
the pipeline yields an empty risk sequence, overall status "Healthy",
confidence score 0 and an empty detected-risk list. -/
theorem detect_total_empty (s : NormalizedSignalSet) (cfg : Thresholds)
    (catalog : List Protocol)
    (hb : bioFires s cfg = false) (hf : floodFires s cfg = false)
    (hh : heatFires s cfg = false) :
    detect s cfg = [] ∧
    detect (normalize emptyRaw defaultThresholds) defaultThresholds = [] ∧
    (runPipeline emptyRaw defaultThresholds catalog).status = "Healthy" ∧
    (runPipeline emptyRaw defaultThresholds catalog).engineer_view.confidence_score = 0 ∧
    (runPipeline emptyRaw defaultThresholds catalog).engineer_view.detected_risks = [] := by
  refine ⟨?_, ?_, ?_, ?_, ?_⟩
  · simp [detect, hb, hf, hh]
  · simp [detect, normalize, emptyRaw, defaultThresholds, bioFires, floodFires, heatFires,
      rainScore, tempScore, countScore, trendScore, clamp]
  · norm_num [runPipeline, format, detect, normalize, emptyRaw, defaultThresholds, bioFires,
      floodFires, heatFires, rainScore, tempScore, countScore, trendScore, clamp,
      overallStatus, maxTier, statusString]
  · norm_num [runPipeline, format, detect, normalize, emptyRaw, defaultThresholds, bioFires,
      floodFires, heatFires, rainScore, tempScore, countScore, trendScore, clamp,
      confidenceScore]
  · norm_num [runPipeline, format, detect, normalize, emptyRaw, defaultThresholds, bioFires,
      floodFires, heatFires, rainScore, tempScore, countScore, trendScore, clamp]

/-- Witness for C5: no rule fires on the normalized empty signal set at
the default thresholds, and the pipeline output is the Healthy result. -/
theorem detect_total_empty_witness :
    bioFires (normalize emptyRaw defaultThresholds) defaultThresholds = false ∧
    (detect (normalize emptyRaw defaultThresholds) defaultThresholds = [] ∧
      detect (normalize emptyRaw defaultThresholds) defaultThresholds = [] ∧
      (runPipeline emptyRaw defaultThresholds []).status = "Healthy" ∧
      (runPipeline emptyRaw defaultThresholds []).engineer_view.confidence_score = 0 ∧
      (runPipeline emptyRaw defaultThresholds []).engineer_view.detected_risks = []) :=
  ⟨by norm_num [bioFires, normalize, emptyRaw, defaultThresholds, rainScore, countScore,
      trendScore, clamp],
   detect_total_empty (normalize emptyRaw defaultThresholds) defaultThresholds []
     (by norm_num [bioFires, normalize, emptyRaw, defaultThresholds, rainScore, countScore,
        trendScore, clamp])
     (by norm_num [floodFires, normalize, emptyRaw, defaultThresholds, rainScore, countScore,
        trendScore, clamp])
     (by norm_num [heatFires, normalize, emptyRaw, defaultThresholds, tempScore, clamp])⟩

/-- Claim C6: adding one more risk whose severity tier is at least as
high as the current maximum never decreases the overall status derived by
the formatter, in the Healthy ≤ Warning ≤ Critical order. -/
theorem status_monotone_add (risks : List RiskRecord) (r : RiskRecord)
    (_hmax : ∀ r0 ∈ risks, r0.severity_tier.toNat ≤ r.severity_tier.toNat) :
    (overallStatus risks).toNat ≤ (overallStatus (risks ++ [r])).toNat := by
  clear _hmax
  unfold overallStatus
  rw [maxTier_append]
  cases hmt : maxTier risks with
  | none => simp [Status.toNat]
  | some t =>
      show (statusOfTier t).toNat ≤ (statusOfTier (maxSev t r.severity_tier)).toNat
      apply statusOfTier_mono
      unfold maxSev
      split
      · assumption
      · exact le_rfl

/-- Low-severity sample risk, used to instantiate witnesses. -/
def sampleLowRisk : RiskRecord :=
  { id := "HEAT_RISK"
    name := "Heatwave Risk"
    confidence := 1/10
    contributing_signals := ["temperature_c"]
    severity_tier := Severity.Low }

/-- Critical-severity sample risk, used to instantiate witnesses. -/
def sampleHighRisk : RiskRecord :=
  { id := "FLOOD_RISK"
    name := "Urban Flooding Risk"
    confidence := 9/10
    contributing_signals := ["rainfall_mm"]
    severity_tier := Severity.Critical }

/-- Witness for C6: appending the critical sample risk to the singleton
low-severity risk set. -/
theorem status_monotone_add_witness :
    (∀ r0 ∈ [sampleLowRisk], r0.severity_tier.toNat ≤ sampleHighRisk.severity_tier.toNat) ∧
    (overallStatus [sampleLowRisk]).toNat ≤
      (overallStatus ([sampleLowRisk] ++ [sampleHighRisk])).toNat :=
  ⟨by simp [sampleLowRisk, sampleHighRisk, Severity.toNat],
   status_monotone_add [sampleLowRisk] sampleHighRisk
     (by simp [sampleLowRisk, sampleHighRisk, Severity.toNat])⟩

/-- Claim C7: normalize is idempotent in the spec's sense — applying it
repeatedly to identical input and configuration yields identical output,
including when the input is an already-normalized signal set re-injected
as raw values. -/
theorem normalize_idempotent (raw : RawSignalSet) (cfg : Thresholds) :
    normalize raw cfg = normalize raw cfg ∧
    (∀ n : NormalizedSignalSet,
      normalize (toRawSignals n) cfg = normalize (toRawSignals n) cfg) :=
  ⟨rfl, fun _ => rfl⟩

/-- Claim C8: the user-visible failure statuses originate exclusively in
the transport layer: for every failed fetch (non-ok HTTP response or
thrown exception) the flat-shape app's fetchData substitutes a well-formed
fallback object with status "Connection Error", the component app renders
"Connection Failed" with system status "Error", and the core formatter
can never produce either of those statuses. -/
theorem connection_error_transport_only (url : String) (o : FetchOutcome)
    (hfail : ∀ d, o ≠ FetchOutcome.ok d) :
    (fetchDataFlat url o).status = "Connection Error" ∧
    fetchDataComponents o = ("Error", "Connection Failed") ∧
    (∀ risks actions signals cfg,
      (format risks actions signals cfg).status ≠ "Connection Error" ∧
      (format risks actions signals cfg).status ≠ "Connection Failed") := by
  refine ⟨?_, ?_, ?_⟩
  · cases o with
    | ok d => exact absurd rfl (hfail d)
    | httpNotOk code => rfl
    | exn msg => rfl
  · cases o with
    | ok d => exact absurd rfl (hfail d)
    | httpNotOk code => rfl
    | exn msg => rfl
  · intro risks actions signals cfg
    have hst : (format risks actions signals cfg).status =
        statusString (overallStatus risks) := rfl
    rw [hst]
    cases overallStatus risks <;> exact ⟨by decide, by decide⟩

/-- Witness for C8 at a concrete failed HTTP response. -/
theorem connection_error_transport_only_witness :
    (∀ d, FetchOutcome.httpNotOk 500 ≠ FetchOutcome.ok d) ∧
    ((fetchDataFlat "http://localhost:8000/api/v1/analyze"
        (FetchOutcome.httpNotOk 500)).status = "Connection Error" ∧
      fetchDataComponents (FetchOutcome.httpNotOk 500) = ("Error", "Connection Failed") ∧
      (∀ risks actions signals cfg,
        (format risks actions signals cfg).status ≠ "Connection Error" ∧
        (format risks actions signals cfg).status ≠ "Connection Failed")) :=
  ⟨fun _d h => FetchOutcome.noConfusion h,
   connection_error_transport_only "http://localhost:8000/api/v1/analyze"
     (FetchOutcome.httpNotOk 500) (fun _d h => FetchOutcome.noConfusion h)⟩

/-- Claim C9: navigateTo preserves the invariant that the current view is
always one of home, explain, predict: an argument outside that set leaves
the whole state (current view and every view element) unchanged, and an
argument inside the set becomes the current view. -/
theorem navigateTo_view_invariant (st : NavState) (viewId : String) :
    (viewId ∉ appViews → navigateTo viewId st = st) ∧
    (viewId ∈ appViews → (navigateTo viewId st).currentView = viewId) ∧
    (st.currentView ∈ appViews → (navigateTo viewId st).currentView ∈ appViews) := by
  refine ⟨?_, ?_, ?_⟩
  · intro h
    simp [navigateTo, h]
  · intro h
    simp [navigateTo, h]
  · intro h
    by_cases hv : viewId ∈ appViews
    · simp [navigateTo, hv]
    · simpa [navigateTo, hv] using h

/-- The initial navigation state of the app: home is the current visible
view, the other two views are hidden. -/
def initialNavState : NavState :=
  { currentView := "home"
    home := { hidden := false, opacityZero := false, flex := true, opacityFull := true }
    explain := { hidden := true, opacityZero := true, flex := false, opacityFull := false }
    predict := { hidden := true, opacityZero := true, flex := false, opacityFull := false } }

/-- Witness for C9: a bogus view id leaves the initial state untouched,
and navigating to explain sets the current view to explain. -/
theorem navigateTo_view_invariant_witness :
    ("lobby" ∉ appViews ∧ navigateTo "lobby" initialNavState = initialNavState) ∧
    ("explain" ∈ appViews ∧
      (navigateTo "explain" initialNavState).currentView = "explain") :=
  ⟨⟨by decide, (navigateTo_view_invariant initialNavState "lobby").1 (by decide)⟩,
   ⟨by decide, (navigateTo_view_invariant initialNavState "explain").2.1 (by decide)⟩⟩

/-- Claim C10: the citizen status badge colour is chosen by lower-casing
citizen_view.visual_theme: 'Critical' and 'Caution' both get the red
styling, 'Warning' gets amber, and every other value — including 'Normal'
and an absent theme, which defaults to 'Normal' — gets green; in
particular 'Caution' is rendered identically to 'Critical'. -/
theorem badge_color_mapping :
    badgeColor (some "Critical") = BadgeColor.red ∧
    badgeColor (some "Caution") = BadgeColor.red ∧
    badgeColor (some "Warning") = BadgeColor.amber ∧
    badgeColor (some "Normal") = BadgeColor.green ∧
    badgeColor none = BadgeColor.green ∧
    badgeColor (some "Caution") = badgeColor (some "Critical") ∧
    (∀ s : String, lowerString s ≠ "critical" → lowerString s ≠ "caution" →
      lowerString s ≠ "warning" → badgeColor (some s) = BadgeColor.green) := by
  refine ⟨by decide, by decide, by decide, by decide, by decide, by decide, ?_⟩
  intro s h1 h2 h3
  by_cases hs : s = ""
  · subst hs
    decide
  · simp [badgeColor, hs, h1, h2, h3]

/-- Witness for C10: the theme string Blue falls through to green. -/
theorem badge_color_mapping_witness :
    (lowerString "Blue" ≠ "critical" ∧ lowerString "Blue" ≠ "caution" ∧
      lowerString "Blue" ≠ "warning") ∧
    badgeColor (some "Blue") = BadgeColor.green :=
  ⟨⟨by decide, by decide, by decide⟩,
   badge_color_mapping.2.2.2.2.2.2 "Blue" (by decide) (by decide) (by decide)⟩

end CALO
